import Mathlib

/-!
Shallow embedding of the `copt` TUI core (Model / Update / terminal lifecycle)
from `src/tui/{model,update,terminal}.rs`, `src/tui/widgets/suggest_modal.rs`,
`src/cli/suggest.rs` and `src/analyzer/mod.rs`, together with theorems about
the result-tree navigation, modal precedence, error handling, resize handling,
save action and terminal restoration.

Conventions of the embedding:
* Rust `usize`/`u16` indices and dimensions become `Nat`; the only arithmetic
  performed on them in the embedded code is saturating (`saturating_sub`,
  bounded increments), which `Nat` subtraction and explicit `min` model
  directly, so no modular wrap-around arises.
* `Instant`/`Duration` become `Nat` time stamps (the `now` field of `Env`);
  `Instant::now() + d` becomes `now + d`.
* Fallible I/O performed inside the update loop (clipboard, directory
  creation, file write, editor spawn) is modelled by an `Env` record that
  supplies each operation's outcome as an `Except String Unit`, threaded
  through the handlers; the handlers themselves are pure.
* Rust string comparison (`Ord` on `String`, byte-wise lexicographic) is
  embedded as `chListLe` on the character data; for the ASCII category keys
  and suggestion ids that occur here this is exactly the byte order.
-/

/-! ## String helpers (embedding Rust `str` operations) -/

/-- Lexicographic `≤` on character lists: the embedding of Rust's `Ord` for
`String`/`&str` (byte-wise lexicographic, identical to code-point order on
the ASCII data used by the program). -/
def chListLe : List Char → List Char → Bool
  | [], _ => true
  | _ :: _, [] => false
  | a :: as, b :: bs =>
    if a < b then true
    else if b < a then false
    else chListLe as bs

/-- `a ≤ b` for strings, via `chListLe` on the underlying data. -/
def strLe (a b : String) : Bool := chListLe a.data b.data

/-- The sort relation used for `sort_by(|a, b| a.cmp(b))` in the source. -/
def strLeRel (a b : String) : Prop := strLe a b = true

instance : DecidableRel strLeRel := fun a b => by
  unfold strLeRel; infer_instance

/-- Embedding of Rust `str::trim`: strip leading and trailing whitespace. -/
def strTrim (s : String) : String :=
  ⟨((s.data.dropWhile Char.isWhitespace).reverse.dropWhile Char.isWhitespace).reverse⟩

/-- Does `needle` occur at the start of `hay`? (list-level) -/
def startsWithList : List Char → List Char → Bool
  | _, [] => true
  | [], _ :: _ => false
  | a :: as, b :: bs => a = b && startsWithList as bs

/-- Does `needle` occur somewhere inside `hay`? (list-level substring test) -/
def containsList : List Char → List Char → Bool
  | [], needle => needle.isEmpty
  | h :: t, needle => startsWithList (h :: t) needle || containsList t needle

/-- Substring containment on strings: `strContainsB hay needle = true` iff
`needle` occurs contiguously inside `hay`. -/
def strContainsB (hay needle : String) : Bool := containsList hay.data needle.data

/-- Embedding of Rust `str::to_lowercase` (ASCII data only in this program). -/
def toLowerStr (s : String) : String := ⟨s.data.map Char.toLower⟩

/-! ## Analyzer data (`src/analyzer/mod.rs`) -/

/-- Issue severity level (`Severity` in `src/analyzer/mod.rs`). -/
inductive Severity where
  | Info
  | Warning
  | Error
deriving DecidableEq, Repr

/-- An issue detected in the prompt (`Issue` in `src/analyzer/mod.rs`). -/
structure Issue where
  id : String
  category : String
  severity : Severity
  message : String
  line : Option Nat
  suggestion : Option String
deriving DecidableEq, Repr

/-! ## Result tree (`src/tui/model.rs`) -/

/-- `format_category_name` from `src/tui/model.rs`: display name for a
category key. -/
def format_category_name (category : String) : String :=
  match toLowerStr category with
  | "explicitness" => "Explicitness"
  | "style" => "Style"
  | "tools" => "Tool Usage"
  | "formatting" => "Formatting"
  | "verbosity" => "Verbosity"
  | "agentic" => "Agentic Coding"
  | "long_horizon" => "Long-Horizon"
  | "frontend" => "Frontend Design"
  | other => other

/-- A category node in the collapsible issue tree (`CategoryNode`). -/
structure CategoryNode where
  category : String
  display_name : String
  issues : List Issue
  expanded : Bool
deriving DecidableEq, Repr

/-- `CategoryNode::new`: starts expanded by default. -/
def CategoryNode.new (category : String) (issues : List Issue) : CategoryNode :=
  { category := category
    display_name := format_category_name category
    issues := issues
    expanded := true }

/-- Number of flattened rows a category contributes: 1 for the header plus
its issue count when expanded (the summand inside `flat_len`). -/
def nodeRows (c : CategoryNode) : Nat :=
  1 + if c.expanded then c.issues.length else 0

/-- The collapsible issue tree (`IssueTree`). -/
structure IssueTree where
  categories : List CategoryNode
  selected_index : Nat
  flat_index : Nat
deriving DecidableEq, Repr

/-- `IssueTree::default()`. -/
def IssueTree.default : IssueTree :=
  { categories := [], selected_index := 0, flat_index := 0 }

/-- `IssueTree::from_issues`: group issues by category, then sort the
category nodes by category key.  The source groups through a `HashMap`
(iteration order arbitrary) and then sorts the nodes with
`sort_by(|a, b| a.category.cmp(&b.category))`; since every key occurs in one
node, this is embedded as sorting the distinct category keys and building one
node per key, each node holding that category's issues in input order (the
order `HashMap::entry(..).push` preserves). -/
def IssueTree.from_issues (issues : List Issue) : IssueTree :=
  let keys := ((issues.map Issue.category).dedup).insertionSort strLeRel
  { categories := keys.map fun c => CategoryNode.new c (issues.filter (fun i => i.category = c))
    selected_index := 0
    flat_index := 0 }

/-- `IssueTree::flat_len`: total rows of the flattened view, recomputed from
expansion state. -/
def IssueTree.flat_len (t : IssueTree) : Nat :=
  (t.categories.map nodeRows).sum

/-- Loop body shared by `is_category_at`: walk the categories keeping the
remaining distance `fi` to the target row; a category header sits at
distance 0, and an expanded category's issues occupy the next
`issues.len()` rows. -/
def isCatAux : List CategoryNode → Nat → Bool
  | [], _ => false
  | c :: cs, fi =>
    if fi = 0 then true
    else if fi < nodeRows c then false
    else isCatAux cs (fi - nodeRows c)

/-- `IssueTree::is_category_at`: is the row at `flat_idx` a category header? -/
def IssueTree.is_category_at (t : IssueTree) (flat_idx : Nat) : Bool :=
  isCatAux t.categories flat_idx

/-- Loop body of `toggle_current`: flip `expanded` of the category whose
header row is at distance `fi`; if `fi` falls strictly inside a category's
child rows the loop index passes it without ever matching, so nothing is
toggled. -/
def toggleAux : List CategoryNode → Nat → List CategoryNode
  | [], _ => []
  | c :: cs, fi =>
    if fi = 0 then { c with expanded := !c.expanded } :: cs
    else if fi < nodeRows c then c :: cs
    else c :: toggleAux cs (fi - nodeRows c)

/-- `IssueTree::toggle_current`. -/
def IssueTree.toggle_current (t : IssueTree) : IssueTree :=
  { t with categories := toggleAux t.categories t.flat_index }

/-- `IssueTree::select_prev`: move selection up, saturating at 0. -/
def IssueTree.select_prev (t : IssueTree) : IssueTree :=
  if t.flat_index > 0 then { t with flat_index := t.flat_index - 1 } else t

/-- `IssueTree::select_next`: move selection down, saturating at
`flat_len().saturating_sub(1)`. -/
def IssueTree.select_next (t : IssueTree) : IssueTree :=
  if t.flat_index < t.flat_len - 1 then { t with flat_index := t.flat_index + 1 } else t

/-- Error state for display (`ErrorState`). -/
structure ErrorState where
  message : String
  details : Option String
deriving DecidableEq, Repr

/-! ## Suggestion templates (`src/cli/suggest.rs`) -/

/-- Suggestion template for improving vague prompts (`Suggestion`). -/
structure Suggestion where
  id : String
  label : String
  description : String
  template : String
deriving DecidableEq, Repr

/-- `ROLE_SUGGESTIONS`: suggestions for role-only prompts (EXP005). -/
def ROLE_SUGGESTIONS : List Suggestion := [
  { id := "response_format"
    label := "Response format specification"
    description := "Define how responses should be structured"
    template := "\n<response_format>\nStructure your responses as follows:\n- Start with a brief summary (1-2 sentences)\n- Provide detailed explanation with relevant context\n- Use bullet points for lists of items\n- End with any caveats or additional considerations\n</response_format>" },
  { id := "source_citation"
    label := "Source citation requirements"
    description := "Require citing sources for answers"
    template := "\n<citation_requirements>\nWhen answering questions:\n- Reference the specific document or section where you found the information\n- Use phrases like \"According to [document name]...\" or \"Based on [section]...\"\n- If information is not found in the provided materials, clearly state this\n</citation_requirements>" },
  { id := "unknown_handling"
    label := "Unknown information handling"
    description := "How to handle questions without answers"
    template := "\n<unknown_handling>\nIf you cannot find the answer in the provided documentation:\n- Clearly state that the specific information is not available\n- Do not speculate or make up information\n- Suggest where the user might find the answer (e.g., \"Contact support for...\")\n</unknown_handling>" },
  { id := "response_length"
    label := "Response length guidance"
    description := "Set expectations for response verbosity"
    template := "\n<response_length>\nAdjust response length based on query complexity:\n- Simple factual questions: 1-3 sentences\n- Explanatory questions: 1-2 paragraphs\n- Complex comparisons or analyses: Detailed response with sections\n</response_length>" },
  { id := "action_directive"
    label := "Action directive (default to action)"
    description := "Make Claude take action rather than suggest"
    template := "\n<default_to_action>\nWhen the user asks for help, provide direct answers rather than asking clarifying questions unless absolutely necessary. Infer the most useful response based on context.\n</default_to_action>" }
]

/-- `OPENENDED_SUGGESTIONS`: suggestions for open-ended prompts (EXP006). -/
def OPENENDED_SUGGESTIONS : List Suggestion := [
  { id := "scope_boundaries"
    label := "Topic scope boundaries"
    description := "Define what topics are in/out of scope"
    template := "\n<scope>\nIn-scope topics:\n- [List specific topics this assistant should handle]\n\nOut-of-scope topics (politely decline):\n- [List topics to avoid or redirect]\n</scope>" },
  { id := "expertise_level"
    label := "Expertise level assumption"
    description := "Set the assumed user expertise level"
    template := "\n<expertise_level>\nAssume the user has [beginner/intermediate/expert] knowledge. Adjust explanations accordingly:\n- Avoid unnecessary jargon for beginners\n- Skip basic explanations for experts\n- Define technical terms when first used\n</expertise_level>" },
  { id := "interaction_style"
    label := "Interaction style"
    description := "Define the conversation tone and style"
    template := "\n<interaction_style>\nMaintain a [professional/friendly/casual] tone. Be:\n- Concise but thorough\n- Helpful without being verbose\n- Direct in providing information\n</interaction_style>" }
]

/-! ## Suggest modal (`src/tui/widgets/suggest_modal.rs`) -/

/-- Sort relation for `sort_by_key(|s| s.id)`. -/
def sugLeRel (a b : Suggestion) : Prop := strLe a.id b.id = true

instance : DecidableRel sugLeRel := fun a b => by
  unfold sugLeRel; infer_instance

/-- Body of `dedup_by_key(|s| s.id)`: drop all but the first of each run of
consecutive elements with equal id. -/
def dedupByIdAux : Suggestion → List Suggestion → List Suggestion
  | a, [] => [a]
  | a, b :: rest =>
    if b.id = a.id then dedupByIdAux a rest
    else a :: dedupByIdAux b rest

/-- `Vec::dedup_by_key(|s| s.id)` on a suggestion list. -/
def dedupById : List Suggestion → List Suggestion
  | [] => []
  | a :: rest => dedupByIdAux a rest

/-- State for the suggest modal (`SuggestModalState`). -/
structure SuggestModalState where
  suggestions : List Suggestion
  selections : List Bool
  cursor : Nat
  visible : Bool
  trigger_issues : List String
deriving DecidableEq, Repr

/-- `SuggestModalState::default()`. -/
def SuggestModalState.default : SuggestModalState :=
  { suggestions := [], selections := [], cursor := 0, visible := false, trigger_issues := [] }

/-- `SuggestModalState::from_issues`: gather the suggestion lists for the
trigger ids present (EXP005 first, then EXP006, matching the source's push
order), sort by id, dedup by id; visible iff some trigger id was found. -/
def SuggestModalState.from_issues (issues : List Issue) : SuggestModalState :=
  let has_exp005 := issues.any fun i => i.id = "EXP005"
  let has_exp006 := issues.any fun i => i.id = "EXP006"
  let suggestions :=
    (if has_exp005 then ROLE_SUGGESTIONS else []) ++
    (if has_exp006 then OPENENDED_SUGGESTIONS else [])
  let trigger_issues :=
    (if has_exp005 then ["EXP005"] else []) ++
    (if has_exp006 then ["EXP006"] else [])
  let suggestions := dedupById (suggestions.insertionSort sugLeRel)
  { suggestions := suggestions
    selections := List.replicate suggestions.length false
    cursor := 0
    visible := !trigger_issues.isEmpty
    trigger_issues := trigger_issues }

/-- `SuggestModalState::should_show`. -/
def SuggestModalState.should_show (issues : List Issue) : Bool :=
  issues.any fun i => i.id = "EXP005" ∨ i.id = "EXP006"

/-- `SuggestModalState::cursor_up`. -/
def SuggestModalState.cursor_up (st : SuggestModalState) : SuggestModalState :=
  if st.cursor > 0 then { st with cursor := st.cursor - 1 } else st

/-- `SuggestModalState::cursor_down`. -/
def SuggestModalState.cursor_down (st : SuggestModalState) : SuggestModalState :=
  if st.cursor < st.suggestions.length - 1 then { st with cursor := st.cursor + 1 } else st

/-- `SuggestModalState::toggle_current`: flip the selection at the cursor
(guarded by `cursor < selections.len()`). -/
def SuggestModalState.toggle_current (st : SuggestModalState) : SuggestModalState :=
  if h : st.cursor < st.selections.length then
    { st with selections := st.selections.set st.cursor (!(st.selections.get ⟨st.cursor, h⟩)) }
  else st

/-- `SuggestModalState::select_all`. -/
def SuggestModalState.select_all (st : SuggestModalState) : SuggestModalState :=
  { st with selections := st.selections.map fun _ => true }

/-- `SuggestModalState::deselect_all`. -/
def SuggestModalState.deselect_all (st : SuggestModalState) : SuggestModalState :=
  { st with selections := st.selections.map fun _ => false }

/-- `SuggestModalState::get_selected`. -/
def SuggestModalState.get_selected (st : SuggestModalState) : List Suggestion :=
  ((st.suggestions.zip st.selections).filter fun p => p.2).map fun p => p.1

/-- `SuggestModalState::has_selections`. -/
def SuggestModalState.has_selections (st : SuggestModalState) : Bool :=
  st.selections.any fun s => s

/-- `SuggestModalState::apply_to_prompt`: trim the original, then append a
newline and each selected template followed by a newline; with no selection
return the original unchanged. -/
def SuggestModalState.apply_to_prompt (st : SuggestModalState) (original : String) : String :=
  let selected := st.get_selected
  if selected.isEmpty then original
  else selected.foldl (fun acc s => acc ++ s.template ++ "\n") (strTrim original ++ "\n")

/-- `SuggestModalState::dismiss`. -/
def SuggestModalState.dismiss (st : SuggestModalState) : SuggestModalState :=
  { st with visible := false }

/-! ## Key events (crossterm surface used by the handlers) -/

/-- The key codes the update logic matches on; every other crossterm key is
represented by `other` (with a code number), which no handler matches. -/
inductive KeyCode where
  | Char (c : Char)
  | Enter
  | Esc
  | Up
  | Down
  | PageUp
  | PageDown
  | Home
  | other (n : Nat)
deriving DecidableEq, Repr

/-- A key event: code plus whether the CONTROL modifier is held (the only
modifier the update logic inspects). -/
structure KeyEvent where
  code : KeyCode
  ctrl : Bool
deriving DecidableEq, Repr

/-- Result of `handle_suggest_modal_key`: the (possibly mutated) modal state
plus the `(handled, should_apply, should_dismiss)` triple the source
returns. -/
structure ModalKeyOut where
  state : SuggestModalState
  handled : Bool
  should_apply : Bool
  dismissed : Bool
deriving DecidableEq, Repr

/-- `handle_suggest_modal_key` from `src/tui/widgets/suggest_modal.rs`. -/
def handle_suggest_modal_key (st : SuggestModalState) (key : KeyEvent) : ModalKeyOut :=
  if !st.visible then ⟨st, false, false, false⟩
  else
    match key.code with
    | KeyCode.Up => ⟨st.cursor_up, true, false, false⟩
    | KeyCode.Char 'k' => ⟨st.cursor_up, true, false, false⟩
    | KeyCode.Down => ⟨st.cursor_down, true, false, false⟩
    | KeyCode.Char 'j' => ⟨st.cursor_down, true, false, false⟩
    | KeyCode.Char ' ' => ⟨st.toggle_current, true, false, false⟩
    | KeyCode.Enter => ⟨st, true, true, true⟩
    | KeyCode.Esc => ⟨st.dismiss, true, false, true⟩
    | KeyCode.Char 'a' => ⟨st.select_all, true, false, false⟩
    | KeyCode.Char 'n' => ⟨st.deselect_all, true, false, false⟩
    | _ => ⟨st, false, false, false⟩

/-! ## Model (`src/tui/model.rs`) -/

/-- Current view being displayed (`View`). -/
inductive View where
  | Main
  | Diff
  | Help
deriving DecidableEq, Repr

/-- Render mode based on CLI flags and environment (`RenderMode`). -/
inductive RenderMode where
  | Interactive
  | Linear
  | Plain
  | Json
  | Quiet
deriving DecidableEq, Repr

/-- Application state for the analysis phase (`AppPhase`). -/
inductive AppPhase where
  | Ready
  | Analyzing
  | AnalysisDone
  | Optimizing
  | Done
  | Error
deriving DecidableEq, Repr

/-- `OptimizationStats` from `src/main.rs`. -/
structure OptimizationStats where
  original_chars : Nat
  optimized_chars : Nat
  original_tokens : Nat
  optimized_tokens : Nat
  rules_applied : Nat
  categories_improved : Nat
  processing_time_ms : Nat
  provider : String
  model : String
deriving DecidableEq, Repr

/-- Main application model (`Model`); `Instant` time stamps are `Nat`. -/
structure Model where
  render_mode : RenderMode
  current_view : View
  phase : AppPhase
  offline_mode : Bool
  original_prompt : String
  optimized_prompt : Option String
  issue_tree : IssueTree
  stats : Option OptimizationStats
  error : Option ErrorState
  input_file : Option String
  scroll_offset : Nat
  show_diff : Bool
  should_quit : Bool
  terminal_width : Nat
  terminal_height : Nat
  suggest_modal : SuggestModalState
  status_message : Option String
  status_clear_at : Option Nat
deriving DecidableEq, Repr

/-- `Model::new`: default state. -/
def Model.new : Model :=
  { render_mode := RenderMode.Linear
    current_view := View.Main
    phase := AppPhase.Ready
    offline_mode := false
    original_prompt := ""
    optimized_prompt := none
    issue_tree := IssueTree.default
    stats := none
    error := none
    input_file := none
    scroll_offset := 0
    show_diff := false
    should_quit := false
    terminal_width := 80
    terminal_height := 24
    suggest_modal := SuggestModalState.default
    status_message := none
    status_clear_at := none }

/-- `Model::set_issues`. -/
def Model.set_issues (m : Model) (issues : List Issue) : Model :=
  let m := { m with issue_tree := IssueTree.from_issues issues, phase := AppPhase.AnalysisDone }
  if SuggestModalState.should_show issues then
    { m with suggest_modal := SuggestModalState.from_issues issues }
  else m

/-- `Model::set_optimization_result`. -/
def Model.set_optimization_result (m : Model) (optimized : String) (stats : OptimizationStats) : Model :=
  { m with optimized_prompt := some optimized
           stats := some stats
           phase := AppPhase.Done
           current_view := View.Diff }

/-- `Model::set_error`. -/
def Model.set_error (m : Model) (e : ErrorState) : Model :=
  { m with error := some e, phase := AppPhase.Error }

/-- `Model::clear_error`: drop the error and restore the most specific prior
phase the state can reconstruct. -/
def Model.clear_error (m : Model) : Model :=
  { m with error := none
           phase :=
             if m.optimized_prompt.isSome then AppPhase.Done
             else if !m.issue_tree.categories.isEmpty then AppPhase.AnalysisDone
             else AppPhase.Ready }

/-- `Model::has_results`. -/
def Model.has_results (m : Model) : Bool :=
  m.optimized_prompt.isSome

/-- `Model::set_status_message` (duration in the same time unit as `now`;
the source uses `Instant::now() + duration`). -/
def Model.set_status_message (m : Model) (message : String) (duration : Nat) (now : Nat) : Model :=
  { m with status_message := some message, status_clear_at := some (now + duration) }

/-- `Model::clear_status_message`. -/
def Model.clear_status_message (m : Model) : Model :=
  { m with status_message := none, status_clear_at := none }

/-- `Model::check_status_expiry`: clear the status message when `now` has
reached its expiry; returns the new model and whether a change occurred. -/
def Model.check_status_expiry (m : Model) (now : Nat) : Model × Bool :=
  match m.status_clear_at with
  | some clear_at => if clear_at ≤ now then (m.clear_status_message, true) else (m, false)
  | none => (m, false)

/-! ## Update (`src/tui/update.rs`) -/

/-- Messages that can be sent to update the model (`Msg`); `u16` resize
dimensions become `Nat`. -/
inductive Msg where
  | Key (key : KeyEvent)
  | Resize (width : Nat) (height : Nat)
  | Tick
  | Quit
deriving DecidableEq, Repr

/-- Outcomes of the side effects the update handlers perform, threaded in
explicitly: the clock read used for status-message expiry, the timestamp
string used in the save filename, and the results of the clipboard command,
`create_dir_all`, `fs::write` and the editor `spawn`. -/
structure Env where
  now : Nat
  timestamp : String
  clipboard : Except String Unit
  create_dir : Except String Unit
  write_file : Except String Unit
  spawn_editor : Except String Unit
deriving Repr

/-- `handle_error_keys`: Enter or Escape dismiss the error modal and restore
the prior phase; every other key leaves the model unchanged and reports the
event as not needing a redraw. -/
def handle_error_keys (m : Model) (key : KeyEvent) : Model × Bool :=
  match key.code with
  | KeyCode.Enter => (m.clear_error, true)
  | KeyCode.Esc => (m.clear_error, true)
  | _ => (m, false)

/-- `handle_copy`: copy the optimized prompt to the clipboard and set a
transient status message reporting the outcome. -/
def handle_copy (env : Env) (m : Model) : Model × Bool :=
  match m.optimized_prompt with
  | some _ =>
    match env.clipboard with
    | Except.ok _ => (m.set_status_message "✓ Copied to clipboard" 3 env.now, true)
    | Except.error e => (m.set_status_message ("✗ Copy failed: " ++ e) 5 env.now, true)
  | none => (m, false)

/-- `handle_save`: write the optimized prompt to
`copt-output/optimized_<timestamp>.txt` and spawn the editor on it; on
successful spawn set the quit flag, otherwise surface the failure in a
status message.  Editor-command construction is an external effect summed up
by `env.spawn_editor`. -/
def handle_save (env : Env) (m : Model) : Model × Bool :=
  match m.optimized_prompt with
  | none => (m, false)
  | some _ =>
    let output_path := "copt-output/" ++ ("optimized_" ++ env.timestamp ++ ".txt")
    match env.create_dir with
    | Except.error e => (m.set_status_message ("✗ Failed to create directory: " ++ e) 5 env.now, true)
    | Except.ok _ =>
      match env.write_file with
      | Except.error e => (m.set_status_message ("✗ Save failed: " ++ e) 5 env.now, true)
      | Except.ok _ =>
        match env.spawn_editor with
        | Except.ok _ => ({ m with should_quit := true }, true)
        | Except.error e =>
          (m.set_status_message ("✓ Saved to " ++ output_path ++ " (editor failed: " ++ e ++ ")") 5 env.now, true)

/-- `handle_open_in_editor`: delegates to `handle_save`. -/
def handle_open_in_editor (env : Env) (m : Model) : Model × Bool :=
  handle_save env m

/-- `handle_main_keys`: key map of the Main view. -/
def handle_main_keys (env : Env) (m : Model) (key : KeyEvent) : Model × Bool :=
  match key.code with
  | KeyCode.Up => ({ m with issue_tree := m.issue_tree.select_prev }, true)
  | KeyCode.Char 'k' => ({ m with issue_tree := m.issue_tree.select_prev }, true)
  | KeyCode.Down => ({ m with issue_tree := m.issue_tree.select_next }, true)
  | KeyCode.Char 'j' => ({ m with issue_tree := m.issue_tree.select_next }, true)
  | KeyCode.Enter => ({ m with issue_tree := m.issue_tree.toggle_current }, true)
  | KeyCode.Char 'd' =>
    if m.has_results then ({ m with current_view := View.Diff }, true) else (m, false)
  | KeyCode.Char '?' => ({ m with current_view := View.Help }, true)
  | KeyCode.Char 'c' => if m.has_results then handle_copy env m else (m, false)
  | KeyCode.Char 's' => if m.has_results then handle_save env m else (m, false)
  | KeyCode.Char 'e' => if m.has_results then handle_open_in_editor env m else (m, false)
  | KeyCode.Char 'r' => if m.has_results then (m, false) else (m, false)
  | KeyCode.PageUp => ({ m with scroll_offset := m.scroll_offset - 10 }, true)
  | KeyCode.PageDown => ({ m with scroll_offset := min (m.scroll_offset + 10) 65535 }, true)
  | KeyCode.Home => ({ m with scroll_offset := 0 }, true)
  | _ => (m, false)

/-- `handle_diff_keys`: key map of the Diff view. -/
def handle_diff_keys (env : Env) (m : Model) (key : KeyEvent) : Model × Bool :=
  match key.code with
  | KeyCode.Esc => ({ m with current_view := View.Main }, true)
  | KeyCode.Char 'd' => ({ m with current_view := View.Main }, true)
  | KeyCode.Char 'c' => handle_copy env m
  | KeyCode.Char 's' => handle_save env m
  | KeyCode.Char 'e' => handle_open_in_editor env m
  | KeyCode.Up => ({ m with scroll_offset := m.scroll_offset - 1 }, true)
  | KeyCode.Down => ({ m with scroll_offset := min (m.scroll_offset + 1) 65535 }, true)
  | KeyCode.PageUp => ({ m with scroll_offset := m.scroll_offset - 10 }, true)
  | KeyCode.PageDown => ({ m with scroll_offset := min (m.scroll_offset + 10) 65535 }, true)
  | _ => (m, false)

/-- `handle_help_keys`: key map of the Help view. -/
def handle_help_keys (m : Model) (key : KeyEvent) : Model × Bool :=
  match key.code with
  | KeyCode.Esc => ({ m with current_view := View.Main }, true)
  | KeyCode.Char '?' => ({ m with current_view := View.Main }, true)
  | KeyCode.Enter => ({ m with current_view := View.Main }, true)
  | _ => (m, false)

/-- The suggest-modal branch of `handle_key`: when the modal is visible and
its key map handles the event, mutate the modal state, apply the selected
suggestions to the working prompt when requested, dismiss when requested,
and short-circuit with a redraw; otherwise fall through (`none`). -/
def suggest_modal_step (m : Model) (key : KeyEvent) : Option (Model × Bool) :=
  if m.suggest_modal.visible then
    let r := handle_suggest_modal_key m.suggest_modal key
    if r.handled then
      let m1 := { m with suggest_modal := r.state }
      let m2 :=
        if r.should_apply && m1.suggest_modal.has_selections then
          { m1 with original_prompt := m1.suggest_modal.apply_to_prompt m1.original_prompt }
        else m1
      let m3 := if r.dismissed then { m2 with suggest_modal := m2.suggest_modal.dismiss } else m2
      some (m3, true)
    else none
  else none

/-- `handle_key`: routing with modal precedence — error modal first, then
the suggest modal (when visible and it handles the key), then the global
quit keys, then the current view's key map. -/
def handle_key (env : Env) (m : Model) (key : KeyEvent) : Model × Bool :=
  if m.error.isSome then handle_error_keys m key
  else
    match suggest_modal_step m key with
    | some out => out
    | none =>
      if key.code = KeyCode.Char 'q' then ({ m with should_quit := true }, false)
      else if key.code = KeyCode.Char 'c' && key.ctrl then ({ m with should_quit := true }, false)
      else
        match m.current_view with
        | View.Main => handle_main_keys env m key
        | View.Diff => handle_diff_keys env m key
        | View.Help => handle_help_keys m key

/-- `update`: the Elm-style transition function; returns the new model and
whether a redraw is needed. -/
def update (env : Env) (m : Model) (msg : Msg) : Model × Bool :=
  match msg with
  | Msg.Key key => handle_key env m key
  | Msg.Resize width height => ({ m with terminal_width := width, terminal_height := height }, true)
  | Msg.Tick => m.check_status_expiry env.now
  | Msg.Quit => ({ m with should_quit := true }, false)

/-! ## Terminal lifecycle (`src/tui/terminal.rs`) -/

/-- Observable terminal state: the `TERMINAL_RAW` atomic flag plus the three
terminal modes the manager switches (raw input, alternate screen, mouse
capture). -/
structure TermState where
  raw_flag : Bool
  term_raw : Bool
  alt_screen : Bool
  mouse_capture : Bool
deriving DecidableEq, Repr

/-- `init`: enable raw mode, record it in the flag, enter the alternate
screen and enable mouse capture. -/
def TermState.init (s : TermState) : TermState :=
  { s with term_raw := true, raw_flag := true, alt_screen := true, mouse_capture := true }

/-- `restore`: atomically swap the flag to false and, only when it was set,
undo raw mode, the alternate screen and mouse capture.  The source discards
every I/O error (`let _ = ...`), so restoration is a total function — it
cannot raise. -/
def TermState.restore (s : TermState) : TermState :=
  if s.raw_flag then
    { s with raw_flag := false, term_raw := false, alt_screen := false, mouse_capture := false }
  else s

/-! ## Order lemmas for the embedded string comparison -/

theorem chListLe_total : ∀ as bs, chListLe as bs = true ∨ chListLe bs as = true
  | [], _ => Or.inl rfl
  | _ :: _, [] => Or.inr rfl
  | a :: as, b :: bs => by
    by_cases h1 : a < b
    · left; simp [chListLe, h1]
    · by_cases h2 : b < a
      · right; simp [chListLe, h1, h2]
      · have ih := chListLe_total as bs
        simpa [chListLe, h1, h2] using ih

theorem chListLe_trans :
    ∀ as bs cs, chListLe as bs = true → chListLe bs cs = true → chListLe as cs = true
  | [], _, _, _, _ => rfl
  | _ :: _, [], _, h1, _ => by simp [chListLe] at h1
  | _ :: _, _ :: _, [], _, h2 => by simp [chListLe] at h2
  | a :: as, b :: bs, c :: cs, h1, h2 => by
    by_cases hab : a < b
    · by_cases hbc : b < c
      · simp [chListLe, lt_trans hab hbc]
      · by_cases hcb : c < b
        · simp [chListLe, hbc, hcb] at h2
        · have hbc' : b = c := le_antisymm (not_lt.mp hcb) (not_lt.mp hbc)
          subst hbc'
          simp [chListLe, hab]
    · by_cases hba : b < a
      · simp [chListLe, hab, hba] at h1
      · have hab' : a = b := le_antisymm (not_lt.mp hba) (not_lt.mp hab)
        subst hab'
        simp only [chListLe, if_neg hab, if_neg (lt_irrefl a), ite_self] at h1 ⊢
        by_cases hac : a < c
        · simp [hac]
        · by_cases hca : c < a
          · simp [chListLe, hac, hca] at h2
          · have hac' : a = c := le_antisymm (not_lt.mp hca) (not_lt.mp hac)
            subst hac'
            simp only [chListLe, if_neg (lt_irrefl a)] at h2 ⊢
            exact chListLe_trans as bs cs h1 h2

theorem chListLe_antisymm :
    ∀ as bs, chListLe as bs = true → chListLe bs as = true → as = bs
  | [], [], _, _ => rfl
  | [], _ :: _, _, h2 => by simp [chListLe] at h2
  | _ :: _, [], h1, _ => by simp [chListLe] at h1
  | a :: as, b :: bs, h1, h2 => by
    by_cases hab : a < b
    · simp [chListLe, lt_asymm hab, hab] at h2
    · by_cases hba : b < a
      · simp [chListLe, hab, hba] at h1
      · have hab' : a = b := le_antisymm (not_lt.mp hba) (not_lt.mp hab)
        subst hab'
        simp only [chListLe, if_neg (lt_irrefl a)] at h1 h2
        rw [chListLe_antisymm as bs h1 h2]

instance : IsTotal String strLeRel :=
  ⟨fun a b => chListLe_total a.data b.data⟩

instance : IsTrans String strLeRel :=
  ⟨fun a b c h1 h2 => chListLe_trans a.data b.data c.data h1 h2⟩

instance : IsAntisymm String strLeRel :=
  ⟨fun a b h1 h2 => String.ext (chListLe_antisymm a.data b.data h1 h2)⟩

/-! ## C5: terminal restoration is idempotent -/

theorem restore_restore (s : TermState) : s.restore.restore = s.restore := by
  unfold TermState.restore
  by_cases h : s.raw_flag <;> simp [h]

/-- C5: restoration is idempotent — for every `N ≥ 1`, invoking `restore`
`N` times yields the same observable state (flag, raw mode, alternate
screen, mouse capture) as invoking it once; it is a total function (the
source discards every inner I/O error, so it cannot raise); and after
entering terminal mode, any invocation — including a second one in
succession — leaves the raw-mode-active flag false. -/
theorem restore_idempotent (s : TermState) (n : Nat) (h : 1 ≤ n) :
    TermState.restore^[n] s = s.restore ∧
    s.init.restore.raw_flag = false ∧
    s.init.restore.restore.raw_flag = false := by
  refine ⟨?_, ?_, ?_⟩
  · induction n with
    | zero => omega
    | succ k ih =>
      cases Nat.eq_or_lt_of_le h with
      | inl h1 =>
        have : k = 0 := by omega
        subst this
        simp
      | inr h2 =>
        have hk : 1 ≤ k := by omega
        rw [Function.iterate_succ_apply', ih hk, restore_restore]
  · simp [TermState.init, TermState.restore]
  · simp [TermState.init, TermState.restore]

/-- Witness for C5 at a concrete state and `N = 2`. -/
theorem restore_idempotent_witness :
    TermState.restore^[2] ⟨true, true, true, true⟩ =
        TermState.restore ⟨true, true, true, true⟩ ∧
      (TermState.init ⟨true, true, true, true⟩).restore.raw_flag = false ∧
      (TermState.init ⟨true, true, true, true⟩).restore.restore.raw_flag = false :=
  restore_idempotent ⟨true, true, true, true⟩ 2 (by decide)

/-! ## C6: the three-issue example scenario -/

/-- The spec's example input: one Warning in category "style", two Info in
category "explicitness". -/
def exampleIssues : List Issue :=
  [ { id := "STY001", category := "style", severity := Severity.Warning
      message := "Style issue", line := none, suggestion := none },
    { id := "EXP001", category := "explicitness", severity := Severity.Info
      message := "Issue 1", line := some 1, suggestion := none },
    { id := "EXP002", category := "explicitness", severity := Severity.Info
      message := "Issue 2", line := some 2, suggestion := none } ]

/-- C6: `from_issues` on the example produces exactly 2 category nodes;
`flat_len` with both expanded is 5; after collapsing the "style" category
(toggling at its header row, flattened index 3) `flat_len` is 4. -/
theorem from_issues_example_scenario :
    (IssueTree.from_issues exampleIssues).categories.length = 2 ∧
    (IssueTree.from_issues exampleIssues).flat_len = 5 ∧
    (IssueTree.from_issues exampleIssues).categories.map (fun c => c.category) =
        ["explicitness", "style"] ∧
    ({ IssueTree.from_issues exampleIssues with flat_index := 3 }.toggle_current).flat_len = 4 := by
  decide

/-! ## C9: resize updates dimensions, requests a redraw, changes nothing else -/

/-- C9: a `Resize(width, height)` message always returns `true` (redraw) and
produces exactly the input model with `terminal_width`/`terminal_height`
replaced by the new values — every other field is unchanged. -/
theorem resize_updates_dimensions_only (env : Env) (m : Model) (width height : Nat) :
    update env m (Msg.Resize width height) =
      ({ m with terminal_width := width, terminal_height := height }, true) := rfl

/-! ## C1: toggle_current and the owning category -/

/-- Every category contributes at least its header row. -/
theorem one_le_nodeRows (c : CategoryNode) : 1 ≤ nodeRows c := by
  unfold nodeRows; exact Nat.le_add_right 1 _

/-- When the walked row is not a category header, the `toggle_current` loop
terminates without flipping anything. -/
theorem toggleAux_of_not_header :
    ∀ (cs : List CategoryNode) (fi : Nat), isCatAux cs fi = false → toggleAux cs fi = cs
  | [], _, _ => rfl
  | c :: cs, fi, h => by
    unfold isCatAux at h
    unfold toggleAux
    by_cases h0 : fi = 0
    · simp [h0] at h
    · simp only [if_neg h0] at h ⊢
      by_cases hlt : fi < nodeRows c
      · simp [hlt]
      · simp only [if_neg hlt] at h ⊢
        rw [toggleAux_of_not_header cs (fi - nodeRows c) h]

/-- When the walked row is the header of `c` (at offset `(pre.map nodeRows).sum`
past the categories `pre` before it), the loop flips exactly `c`. -/
theorem toggleAux_at_header :
    ∀ (pre : List CategoryNode) (c : CategoryNode) (post : List CategoryNode),
      toggleAux (pre ++ c :: post) ((pre.map nodeRows).sum) =
        pre ++ { c with expanded := !c.expanded } :: post
  | [], c, post => by simp [toggleAux]
  | p :: pre, c, post => by
    have h1 : 1 ≤ nodeRows p := one_le_nodeRows p
    have hs : (List.map nodeRows (p :: pre)).sum = nodeRows p + (List.map nodeRows pre).sum := by
      simp
    rw [List.cons_append]
    unfold toggleAux
    rw [hs]
    have h0 : ¬ (nodeRows p + (List.map nodeRows pre).sum = 0) := by omega
    have hlt : ¬ (nodeRows p + (List.map nodeRows pre).sum < nodeRows p) := by omega
    simp only [if_neg h0, if_neg hlt, Nat.add_sub_cancel_left]
    rw [toggleAux_at_header pre c post, List.cons_append]

/-- A tree whose single category "style" holds one issue, with `flat_index`
on the issue's child row (row 1 of rows 0..1). -/
def childRowTree : IssueTree :=
  { categories := [CategoryNode.new "style"
      [{ id := "STY001", category := "style", severity := Severity.Warning
         message := "Style issue", line := none, suggestion := none }]]
    selected_index := 0
    flat_index := 1 }

/-- Counterexample to C1: `flat_index = 1` is a row belonging to the "style"
category (its only child issue row, and `flat_len = 2` so the row exists),
yet `toggle_current` leaves the tree — in particular the category's
`expanded` flag — completely unchanged instead of flipping it. -/
theorem toggle_current_child_row_cex :
    childRowTree.flat_len = 2 ∧
    childRowTree.is_category_at childRowTree.flat_index = false ∧
    childRowTree.toggle_current = childRowTree ∧
    childRowTree.toggle_current.categories.map (fun c => c.expanded) = [true] := by
  decide

/-- C1 (amended): `toggle_current` flips the `expanded` flag of a category
only when `flat_index` is that category's header row; when `flat_index`
denotes a child issue row (or any non-header row), the tree is unchanged. -/
theorem toggle_current_flips_only_header (t : IssueTree) (pre : List CategoryNode)
    (c : CategoryNode) (post : List CategoryNode) :
    (t.is_category_at t.flat_index = false → t.toggle_current = t) ∧
    (t.categories = pre ++ c :: post → t.flat_index = (pre.map nodeRows).sum →
      t.toggle_current = { t with categories := pre ++ { c with expanded := !c.expanded } :: post }) := by
  constructor
  · intro h
    unfold IssueTree.toggle_current
    rw [toggleAux_of_not_header _ _ h]
  · intro hc hf
    unfold IssueTree.toggle_current
    rw [hf, hc, toggleAux_at_header]

/-- A two-category tree with `flat_index` on the second category's header
(row 2 after the expanded first category's 2 rows). -/
def headerTree : IssueTree :=
  { categories :=
      [CategoryNode.new "explicitness"
        [{ id := "EXP001", category := "explicitness", severity := Severity.Info
           message := "Issue 1", line := some 1, suggestion := none }],
       CategoryNode.new "style"
        [{ id := "STY001", category := "style", severity := Severity.Warning
           message := "Style issue", line := none, suggestion := none }]]
    selected_index := 0
    flat_index := 2 }

/-- Witness for the amended C1: at a child row `toggle_current` is the
identity, and at the second category's header row it flips exactly that
category. -/
theorem toggle_current_flips_only_header_witness :
    childRowTree.toggle_current = childRowTree ∧
    headerTree.toggle_current =
      { headerTree with categories :=
          [CategoryNode.new "explicitness"
            [{ id := "EXP001", category := "explicitness", severity := Severity.Info
               message := "Issue 1", line := some 1, suggestion := none }],
           { CategoryNode.new "style"
              [{ id := "STY001", category := "style", severity := Severity.Warning
                 message := "Style issue", line := none, suggestion := none }]
             with expanded := false }] } := by
  constructor
  · exact (toggle_current_flips_only_header childRowTree [] (CategoryNode.new "x" []) []).1
      (by decide)
  · exact (toggle_current_flips_only_header headerTree
      [CategoryNode.new "explicitness"
        [{ id := "EXP001", category := "explicitness", severity := Severity.Info
           message := "Issue 1", line := some 1, suggestion := none }]]
      (CategoryNode.new "style"
        [{ id := "STY001", category := "style", severity := Severity.Warning
           message := "Style issue", line := none, suggestion := none }])
      []).2 (by decide) (by decide)

/-! ## C2: navigation keeps flat_index in bounds -/

/-- The two navigation operations of the result tree. -/
inductive NavOp where
  | prev
  | next
deriving DecidableEq, Repr

/-- Apply one navigation operation. -/
def applyNav (t : IssueTree) : NavOp → IssueTree
  | NavOp.prev => t.select_prev
  | NavOp.next => t.select_next

/-- Apply a finite sequence of navigation operations, left to right. -/
def applyNavs (ops : List NavOp) (t : IssueTree) : IssueTree :=
  ops.foldl applyNav t

theorem applyNav_categories (t : IssueTree) (op : NavOp) :
    (applyNav t op).categories = t.categories := by
  cases op with
  | prev =>
    show t.select_prev.categories = t.categories
    unfold IssueTree.select_prev
    split <;> rfl
  | next =>
    show t.select_next.categories = t.categories
    unfold IssueTree.select_next
    split <;> rfl

theorem applyNav_inv (t : IssueTree) (op : NavOp) (h : t.flat_index < t.flat_len) :
    (applyNav t op).flat_index < (applyNav t op).flat_len := by
  have hc : (applyNav t op).flat_len = t.flat_len := by
    unfold IssueTree.flat_len
    rw [applyNav_categories]
  rw [hc]
  cases op with
  | prev =>
    show t.select_prev.flat_index < t.flat_len
    unfold IssueTree.select_prev
    split
    · show t.flat_index - 1 < t.flat_len
      omega
    · exact h
  | next =>
    show t.select_next.flat_index < t.flat_len
    unfold IssueTree.select_next
    split
    · rename_i hlt
      show t.flat_index + 1 < t.flat_len
      omega
    · exact h

theorem applyNavs_inv :
    ∀ (ops : List NavOp) (t : IssueTree), t.flat_index < t.flat_len →
      (applyNavs ops t).flat_index < (applyNavs ops t).flat_len
  | [], _, h => h
  | op :: ops, t, h => by
    have hstep := applyNav_inv t op h
    simpa [applyNavs, List.foldl] using applyNavs_inv ops (applyNav t op) hstep

/-- A non-empty category list has at least one flattened row. -/
theorem sum_nodeRows_pos (c : CategoryNode) (cs : List CategoryNode) :
    0 < (List.map nodeRows (c :: cs)).sum := by
  have := one_le_nodeRows c
  simp only [List.map_cons, List.sum_cons]
  omega

/-- A non-empty issue list yields a tree with at least one flattened row. -/
theorem from_issues_flat_len_pos (l : List Issue) (h : l ≠ []) :
    0 < (IssueTree.from_issues l).flat_len := by
  simp only [IssueTree.from_issues, IssueTree.flat_len]
  have hm : (l.map Issue.category) ≠ [] := by simpa using h
  have hd : (l.map Issue.category).dedup ≠ [] := by
    simpa [List.dedup_eq_nil] using hm
  have hs : ((l.map Issue.category).dedup.insertionSort strLeRel) ≠ [] := by
    intro hnil
    have hp : ((l.map Issue.category).dedup.insertionSort strLeRel).Perm
        ((l.map Issue.category).dedup) := List.perm_insertionSort strLeRel _
    rw [hnil] at hp
    exact hd (List.Perm.eq_nil hp.symm)
  obtain ⟨k, ks, hk⟩ := List.exists_cons_of_ne_nil hs
  rw [hk, List.map_cons]
  exact sum_nodeRows_pos _ _

/-- C2: starting from `from_issues` on a non-empty issue list, every finite
sequence of `select_prev`/`select_next` calls keeps
`flat_index < flat_len()` at every step (the claim holds for every prefix
since `ops` is universally quantified), and movement saturates at both
bounds: `select_prev` at row 0 and `select_next` at the last row are
identities (no wraparound). -/
theorem nav_keeps_flat_index_in_bounds (l : List Issue) (ops : List NavOp) (h : l ≠ []) :
    (applyNavs ops (IssueTree.from_issues l)).flat_index <
      (applyNavs ops (IssueTree.from_issues l)).flat_len ∧
    (∀ t : IssueTree, t.flat_index = 0 → t.select_prev = t) ∧
    (∀ t : IssueTree, t.flat_index + 1 = t.flat_len → t.select_next = t) := by
  refine ⟨?_, ?_, ?_⟩
  · have h0 : (IssueTree.from_issues l).flat_index = 0 := rfl
    exact applyNavs_inv ops _ (by rw [h0]; exact from_issues_flat_len_pos l h)
  · intro t ht
    unfold IssueTree.select_prev
    simp [ht]
  · intro t ht
    unfold IssueTree.select_next
    have : ¬ (t.flat_index < t.flat_len - 1) := by omega
    simp [this]

/-- Witness for C2 on the example issues and a concrete key sequence. -/
theorem nav_keeps_flat_index_in_bounds_witness :
    (applyNavs [NavOp.next, NavOp.next, NavOp.prev]
        (IssueTree.from_issues exampleIssues)).flat_index <
      (applyNavs [NavOp.next, NavOp.next, NavOp.prev]
        (IssueTree.from_issues exampleIssues)).flat_len ∧
    (∀ t : IssueTree, t.flat_index = 0 → t.select_prev = t) ∧
    (∀ t : IssueTree, t.flat_index + 1 = t.flat_len → t.select_next = t) :=
  nav_keeps_flat_index_in_bounds exampleIssues [NavOp.next, NavOp.next, NavOp.prev]
    (by decide)

/-! ## C3: quit keys and modal precedence -/

/-- A default environment for concrete witnesses: every external operation
succeeds. -/
def envDefault : Env :=
  { now := 0, timestamp := "20250101_000000", clipboard := Except.ok ()
    create_dir := Except.ok (), write_file := Except.ok (), spawn_editor := Except.ok () }

/-- The suggest modal's key map does not claim the 'q' key. -/
theorem modal_ignores_q (st : SuggestModalState) (ctrl : Bool) :
    (handle_suggest_modal_key st ⟨KeyCode.Char 'q', ctrl⟩).handled = false := by
  unfold handle_suggest_modal_key
  by_cases hv : st.visible <;> simp [hv]

/-- The suggest modal's key map does not claim the 'c' key. -/
theorem modal_ignores_c (st : SuggestModalState) (ctrl : Bool) :
    (handle_suggest_modal_key st ⟨KeyCode.Char 'c', ctrl⟩).handled = false := by
  unfold handle_suggest_modal_key
  by_cases hv : st.visible <;> simp [hv]

/-- When the modal's key map does not handle the key, the modal branch falls
through. -/
theorem suggest_modal_step_of_not_handled (m : Model) (key : KeyEvent)
    (h : (handle_suggest_modal_key m.suggest_modal key).handled = false) :
    suggest_modal_step m key = none := by
  unfold suggest_modal_step
  by_cases hv : m.suggest_modal.visible <;> simp [hv, h]

/-- C3: for every model state, 'q' or Ctrl+C sets the quit flag (and requests
no redraw) whatever the current view, phase or suggest-modal visibility —
the suggest modal's key map never handles these keys, so the exception for a
modal-handled key never fires — except when the error modal is active, in
which case it intercepts the event and the model (in particular its quit
flag) is unchanged. -/
theorem quit_keys_set_quit_unless_error_modal (env : Env) (m : Model) (key : KeyEvent)
    (hq : key.code = KeyCode.Char 'q' ∨ (key.code = KeyCode.Char 'c' ∧ key.ctrl = true)) :
    (m.error = none → handle_key env m key = ({ m with should_quit := true }, false)) ∧
    (m.error.isSome = true → (handle_key env m key).1 = m) ∧
    (handle_suggest_modal_key m.suggest_modal key).handled = false := by
  obtain ⟨code, ctrl⟩ := key
  rcases hq with h | ⟨h, hc⟩
  · simp only [] at h
    subst h
    refine ⟨?_, ?_, modal_ignores_q m.suggest_modal ctrl⟩
    · intro he
      unfold handle_key
      rw [suggest_modal_step_of_not_handled m _ (modal_ignores_q m.suggest_modal ctrl)]
      simp [he]
    · intro he
      unfold handle_key
      rw [if_pos he]
      unfold handle_error_keys
      simp
  · simp only [] at h hc
    subst h
    subst hc
    refine ⟨?_, ?_, modal_ignores_c m.suggest_modal true⟩
    · intro he
      unfold handle_key
      rw [suggest_modal_step_of_not_handled m _ (modal_ignores_c m.suggest_modal true)]
      simp [he]
    · intro he
      unfold handle_key
      rw [if_pos he]
      unfold handle_error_keys
      simp

/-- Witness for C3: pressing 'q' on the default model quits. -/
theorem quit_keys_set_quit_unless_error_modal_witness :
    (Model.new.error = none →
      handle_key envDefault Model.new ⟨KeyCode.Char 'q', false⟩ =
        ({ Model.new with should_quit := true }, false)) ∧
    (Model.new.error.isSome = true →
      (handle_key envDefault Model.new ⟨KeyCode.Char 'q', false⟩).1 = Model.new) ∧
    (handle_suggest_modal_key Model.new.suggest_modal ⟨KeyCode.Char 'q', false⟩).handled = false :=
  quit_keys_set_quit_unless_error_modal envDefault Model.new ⟨KeyCode.Char 'q', false⟩
    (Or.inl rfl)

/-! ## C4: the error modal owns input until dismissed -/

/-- C4: while an error is active, Enter or Escape dismiss it via
`clear_error` (with a redraw), any other key leaves the model unchanged (and
requests no redraw, though the event was still consumed by the modal), and
`clear_error` restores the most specific reconstructible prior phase:
Done when an optimized prompt exists, else AnalysisDone when the issue tree
has categories, else Ready. -/
theorem error_modal_owns_input (env : Env) (m : Model) (e : ErrorState) (key : KeyEvent)
    (he : m.error = some e) :
    ((key.code = KeyCode.Enter ∨ key.code = KeyCode.Esc) →
      handle_key env m key = (m.clear_error, true)) ∧
    (key.code ≠ KeyCode.Enter → key.code ≠ KeyCode.Esc →
      handle_key env m key = (m, false)) ∧
    m.clear_error.error = none ∧
    m.clear_error.phase =
      (if m.optimized_prompt.isSome then AppPhase.Done
       else if !m.issue_tree.categories.isEmpty then AppPhase.AnalysisDone
       else AppPhase.Ready) := by
  obtain ⟨code, ctrl⟩ := key
  have hs : m.error.isSome = true := by rw [he]; rfl
  refine ⟨?_, ?_, rfl, rfl⟩
  · intro h
    unfold handle_key
    rw [if_pos hs]
    rcases h with h | h
    · have h' : code = KeyCode.Enter := h
      subst h'
      rfl
    · have h' : code = KeyCode.Esc := h
      subst h'
      rfl
  · intro h1 h2
    have h1' : code ≠ KeyCode.Enter := h1
    have h2' : code ≠ KeyCode.Esc := h2
    unfold handle_key
    rw [if_pos hs]
    unfold handle_error_keys
    cases code
    all_goals first
      | rfl
      | exact absurd rfl h1'
      | exact absurd rfl h2'

/-- Witness for C4 on a model with an active error. -/
theorem error_modal_owns_input_witness :
    ((KeyEvent.code ⟨KeyCode.Enter, false⟩ = KeyCode.Enter ∨
        KeyEvent.code ⟨KeyCode.Enter, false⟩ = KeyCode.Esc) →
      handle_key envDefault (Model.new.set_error ⟨"boom", none⟩) ⟨KeyCode.Enter, false⟩ =
        ((Model.new.set_error ⟨"boom", none⟩).clear_error, true)) ∧
    (KeyEvent.code ⟨KeyCode.Enter, false⟩ ≠ KeyCode.Enter →
      KeyEvent.code ⟨KeyCode.Enter, false⟩ ≠ KeyCode.Esc →
      handle_key envDefault (Model.new.set_error ⟨"boom", none⟩) ⟨KeyCode.Enter, false⟩ =
        (Model.new.set_error ⟨"boom", none⟩, false)) ∧
    (Model.new.set_error ⟨"boom", none⟩).clear_error.error = none ∧
    (Model.new.set_error ⟨"boom", none⟩).clear_error.phase =
      (if (Model.new.set_error ⟨"boom", none⟩).optimized_prompt.isSome then AppPhase.Done
       else if !(Model.new.set_error ⟨"boom", none⟩).issue_tree.categories.isEmpty then
         AppPhase.AnalysisDone
       else AppPhase.Ready) :=
  error_modal_owns_input envDefault (Model.new.set_error ⟨"boom", none⟩) ⟨"boom", none⟩
    ⟨KeyCode.Enter, false⟩ rfl

/-! ## C10: a successful save quits the session -/

/-- C10: with optimization results present, no modal active, the view Main
or Diff, and the directory creation, file write and editor spawn all
succeeding, the 's' key runs `handle_save`, which sets the quit flag — a
successful save terminates the interactive session. -/
theorem save_success_quits (env : Env) (m : Model) (opt : String)
    (he : m.error = none) (hv : m.suggest_modal.visible = false)
    (ho : m.optimized_prompt = some opt)
    (hcd : env.create_dir = Except.ok ()) (hw : env.write_file = Except.ok ())
    (hsp : env.spawn_editor = Except.ok ())
    (hview : m.current_view = View.Main ∨ m.current_view = View.Diff) :
    handle_key env m ⟨KeyCode.Char 's', false⟩ = ({ m with should_quit := true }, true) := by
  have hsave : handle_save env m = ({ m with should_quit := true }, true) := by
    unfold handle_save
    simp [ho, hcd, hw, hsp]
  have hstep : suggest_modal_step m ⟨KeyCode.Char 's', false⟩ = none := by
    unfold suggest_modal_step
    simp [hv]
  have hs : ¬ (m.error.isSome = true) := by rw [he]; simp
  have hres : m.has_results = true := by
    unfold Model.has_results
    rw [ho]
    rfl
  have hkey : handle_key env m ⟨KeyCode.Char 's', false⟩ = handle_save env m := by
    unfold handle_key
    rw [if_neg hs, hstep]
    rcases hview with h | h <;>
      rw [h] <;>
      simp [handle_main_keys, handle_diff_keys, hres]
  rw [hkey, hsave]

/-- Witness for C10 on a model holding optimization results, with every
external operation succeeding. -/
theorem save_success_quits_witness :
    handle_key envDefault
        (Model.new.set_optimization_result "better prompt"
          ⟨10, 20, 3, 5, 2, 1, 100, "anthropic", "claude"⟩)
        ⟨KeyCode.Char 's', false⟩ =
      ({ Model.new.set_optimization_result "better prompt"
          ⟨10, 20, 3, 5, 2, 1, 100, "anthropic", "claude"⟩ with should_quit := true }, true) :=
  save_success_quits envDefault
    (Model.new.set_optimization_result "better prompt"
      ⟨10, 20, 3, 5, 2, 1, 100, "anthropic", "claude"⟩)
    "better prompt" rfl rfl rfl rfl rfl rfl (Or.inr rfl)

/-! ## C8: category order is deterministic; every category starts expanded -/

/-- The category keys of `from_issues` are the sorted deduplicated input
categories. -/
theorem from_issues_map_category (l : List Issue) :
    (IssueTree.from_issues l).categories.map (fun c => c.category) =
      ((l.map Issue.category).dedup).insertionSort strLeRel := by
  simp only [IssueTree.from_issues, List.map_map]
  have hfun : ((fun c : CategoryNode => c.category) ∘ fun c : String =>
      CategoryNode.new c (l.filter fun i => i.category = c)) = id := by
    funext c
    rfl
  rw [hfun, List.map_id]

/-- C8: for permuted issue lists, `from_issues` yields the same categories
in the same order (deterministic, input-order independent), and every
produced category node starts expanded. -/
theorem from_issues_order_deterministic (l1 l2 : List Issue) (hp : l1.Perm l2) :
    (IssueTree.from_issues l1).categories.map (fun c => c.category) =
      (IssueTree.from_issues l2).categories.map (fun c => c.category) ∧
    (∀ c ∈ (IssueTree.from_issues l1).categories, c.expanded = true) := by
  constructor
  · rw [from_issues_map_category, from_issues_map_category]
    have h1 : ((l1.map Issue.category).dedup).Perm ((l2.map Issue.category).dedup) :=
      (hp.map Issue.category).dedup
    have p1 := List.perm_insertionSort strLeRel ((l1.map Issue.category).dedup)
    have p2 := List.perm_insertionSort strLeRel ((l2.map Issue.category).dedup)
    have s1 := List.sorted_insertionSort strLeRel ((l1.map Issue.category).dedup)
    have s2 := List.sorted_insertionSort strLeRel ((l2.map Issue.category).dedup)
    exact List.eq_of_perm_of_sorted ((p1.trans h1).trans p2.symm) s1 s2
  · intro c hc
    simp only [IssueTree.from_issues, List.mem_map] at hc
    obtain ⟨k, _, rfl⟩ := hc
    rfl

/-- A permutation of `exampleIssues`. -/
def exampleIssuesPerm : List Issue :=
  [ { id := "EXP002", category := "explicitness", severity := Severity.Info
      message := "Issue 2", line := some 2, suggestion := none },
    { id := "STY001", category := "style", severity := Severity.Warning
      message := "Style issue", line := none, suggestion := none },
    { id := "EXP001", category := "explicitness", severity := Severity.Info
      message := "Issue 1", line := some 1, suggestion := none } ]

/-- Witness for C8 on the example issues and a concrete permutation. -/
theorem from_issues_order_deterministic_witness :
    (IssueTree.from_issues exampleIssues).categories.map (fun c => c.category) =
      (IssueTree.from_issues exampleIssuesPerm).categories.map (fun c => c.category) ∧
    (∀ c ∈ (IssueTree.from_issues exampleIssues).categories, c.expanded = true) :=
  from_issues_order_deterministic exampleIssues exampleIssuesPerm (by decide)

/-! ## C7: the suggest modal and apply-to-prompt -/

theorem startsWithList_append : ∀ (as bs : List Char), startsWithList (as ++ bs) as = true
  | [], bs => by cases bs <;> rfl
  | a :: as, bs => by
    simp [startsWithList, startsWithList_append as bs]

/-- A string list contains any of its own initial segments. -/
theorem containsAt_start : ∀ (as bs : List Char), containsList (as ++ bs) as = true
  | [], bs => by cases bs <;> simp [containsList, startsWithList]
  | a :: as, bs => by
    simp only [containsList, List.cons_append, Bool.or_eq_true]
    exact Or.inl (startsWithList_append (a :: as) bs)

theorem dedupByIdAux_ne_nil : ∀ (a : Suggestion) (l : List Suggestion), dedupByIdAux a l ≠ []
  | _, [] => by simp [dedupByIdAux]
  | a, b :: rest => by
    unfold dedupByIdAux
    split
    · exact dedupByIdAux_ne_nil a rest
    · simp

theorem dedupById_ne_nil (l : List Suggestion) (h : l ≠ []) : dedupById l ≠ [] := by
  cases l with
  | nil => exact absurd rfl h
  | cons a rest => exact dedupByIdAux_ne_nil a rest

theorem insertionSort_sug_ne_nil (l : List Suggestion) (h : l ≠ []) :
    l.insertionSort sugLeRel ≠ [] := by
  intro hnil
  have hp : (l.insertionSort sugLeRel).Perm l := List.perm_insertionSort sugLeRel l
  rw [hnil] at hp
  exact h hp.symm.eq_nil

/-- Structural facts about a freshly built suggest modal when a trigger id
is present: non-empty suggestion list, visible, all-false selection vector
of matching length, cursor at 0. -/
theorem from_issues_modal_props (issues : List Issue)
    (h : issues.any (fun i => decide (i.id = "EXP005")) = true ∨
         issues.any (fun i => decide (i.id = "EXP006")) = true) :
    (SuggestModalState.from_issues issues).suggestions ≠ [] ∧
    (SuggestModalState.from_issues issues).visible = true ∧
    (SuggestModalState.from_issues issues).selections =
      List.replicate (SuggestModalState.from_issues issues).suggestions.length false ∧
    (SuggestModalState.from_issues issues).cursor = 0 := by
  refine ⟨?_, ?_, rfl, rfl⟩
  · simp only [SuggestModalState.from_issues]
    apply dedupById_ne_nil
    apply insertionSort_sug_ne_nil
    rcases h with h5 | h6
    · rw [h5]
      by_cases h6 : issues.any (fun i => decide (i.id = "EXP006")) = true
      · rw [h6]; decide
      · simp only [Bool.not_eq_true] at h6
        rw [h6]; decide
    · rw [h6]
      by_cases h5 : issues.any (fun i => decide (i.id = "EXP005")) = true
      · rw [h5]; decide
      · simp only [Bool.not_eq_true] at h5
        rw [h5]; decide
  · simp only [SuggestModalState.from_issues]
    rcases h with h5 | h6
    · rw [h5]; simp
    · rw [h6]
      by_cases h5 : issues.any (fun i => decide (i.id = "EXP005")) = true
      · rw [h5]; simp
      · simp only [Bool.not_eq_true] at h5
        rw [h5]; simp

/-- Selecting over an all-false selection vector keeps nothing. -/
theorem filter_zip_replicate_false :
    ∀ (xs : List Suggestion),
      ((xs.zip (List.replicate xs.length false)).filter fun p => p.2) = []
  | [] => rfl
  | x :: xs => by
    simp only [List.length_cons, List.replicate_succ, List.zip_cons_cons, List.filter_cons]
    simpa using filter_zip_replicate_false xs

/-- Toggling at cursor 0 over an all-false vector selects exactly the first
suggestion; `has_selections` becomes true; visibility is untouched. -/
theorem toggle_first_selected (st : SuggestModalState) (s0 : Suggestion)
    (rest : List Suggestion) (hsug : st.suggestions = s0 :: rest)
    (hsel : st.selections = List.replicate st.suggestions.length false)
    (hcur : st.cursor = 0) :
    st.toggle_current.get_selected = [s0] ∧
    st.toggle_current.has_selections = true ∧
    st.toggle_current.visible = st.visible := by
  obtain ⟨sug, sel, cur, vis, tr⟩ := st
  have hsug' : sug = s0 :: rest := hsug
  have hcur' : cur = 0 := hcur
  subst hsug'
  subst hcur'
  have hsel' : sel = false :: List.replicate rest.length false := hsel
  subst hsel'
  have hlt : (0 : Nat) < (false :: List.replicate rest.length false).length := by simp
  refine ⟨?_, ?_, ?_⟩
  · show SuggestModalState.get_selected (SuggestModalState.toggle_current _) = [s0]
    unfold SuggestModalState.toggle_current
    rw [dif_pos hlt]
    unfold SuggestModalState.get_selected
    simp only [List.get, List.set, Bool.not_false, List.zip_cons_cons, List.filter_cons,
      List.map_cons]
    simp [filter_zip_replicate_false rest]
  · show SuggestModalState.has_selections (SuggestModalState.toggle_current _) = true
    unfold SuggestModalState.toggle_current
    rw [dif_pos hlt]
    unfold SuggestModalState.has_selections
    simp [List.set]
  · show (SuggestModalState.toggle_current _).visible = vis
    unfold SuggestModalState.toggle_current
    rw [dif_pos hlt]

/-- Enter on a visible suggest modal with selections: apply the selected
templates to the working prompt and dismiss, short-circuiting the routing. -/
theorem suggest_modal_step_enter (m : Model)
    (hv : m.suggest_modal.visible = true)
    (hh : m.suggest_modal.has_selections = true) :
    suggest_modal_step m ⟨KeyCode.Enter, false⟩ =
      some ({ m with original_prompt := m.suggest_modal.apply_to_prompt m.original_prompt,
                     suggest_modal := m.suggest_modal.dismiss }, true) := by
  unfold suggest_modal_step handle_suggest_modal_key
  rw [hv]
  simp [hh]

/-- When the modal branch fires, `handle_key` returns its output. -/
theorem handle_key_modal_some (env : Env) (m : Model) (key : KeyEvent) (out : Model × Bool)
    (he : m.error.isSome = false)
    (hstep : suggest_modal_step m key = some out) :
    handle_key env m key = out := by
  unfold handle_key
  rw [if_neg (by rw [he]; simp), hstep]

set_option maxHeartbeats 2000000 in
/-- C7 (amended): for every issue list containing a trigger id (EXP005 or
EXP006) the suggest modal is visible, and — for every original prompt with
no surrounding whitespace (`strTrim p = p`; the code trims the original
before appending, so prompts with leading/trailing whitespace are not
literally contained in the result) — selecting the first entry with
`toggle_current` and pressing Enter yields a working prompt that contains
the original as a substring and is strictly longer. -/
theorem suggest_apply_appends_to_trimmed_prompt (env : Env) (issues : List Issue) (p : String)
    (htrig : issues.any (fun i => decide (i.id = "EXP005")) = true ∨
             issues.any (fun i => decide (i.id = "EXP006")) = true)
    (htrim : strTrim p = p) :
    (SuggestModalState.from_issues issues).visible = true ∧
    strContainsB
      (handle_key env
        { Model.new with original_prompt := p,
                         suggest_modal := (SuggestModalState.from_issues issues).toggle_current }
        ⟨KeyCode.Enter, false⟩).1.original_prompt p = true ∧
    p.length <
      (handle_key env
        { Model.new with original_prompt := p,
                         suggest_modal := (SuggestModalState.from_issues issues).toggle_current }
        ⟨KeyCode.Enter, false⟩).1.original_prompt.length := by
  obtain ⟨hne, hvis, hsel, hcur⟩ := from_issues_modal_props issues htrig
  obtain ⟨s0, rest, hs0⟩ := List.exists_cons_of_ne_nil hne
  obtain ⟨hget, hhas, hvis2⟩ :=
    toggle_first_selected (SuggestModalState.from_issues issues) s0 rest hs0 hsel hcur
  have hstv : (SuggestModalState.from_issues issues).toggle_current.visible = true := by
    rw [hvis2, hvis]
  have happ : (SuggestModalState.from_issues issues).toggle_current.apply_to_prompt p =
      ((strTrim p ++ "\n") ++ s0.template) ++ "\n" := by
    unfold SuggestModalState.apply_to_prompt
    rw [hget]
    rfl
  have hstv' : ({ Model.new with
      original_prompt := p,
      suggest_modal := (SuggestModalState.from_issues issues).toggle_current } :
        Model).suggest_modal.visible = true := hstv
  have hhas' : ({ Model.new with
      original_prompt := p,
      suggest_modal := (SuggestModalState.from_issues issues).toggle_current } :
        Model).suggest_modal.has_selections = true := hhas
  have hsome := suggest_modal_step_enter
    { Model.new with original_prompt := p,
                     suggest_modal := (SuggestModalState.from_issues issues).toggle_current }
    hstv' hhas'
  have hkey := handle_key_modal_some env
    { Model.new with original_prompt := p,
                     suggest_modal := (SuggestModalState.from_issues issues).toggle_current }
    ⟨KeyCode.Enter, false⟩ _ rfl hsome
  refine ⟨hvis, ?_, ?_⟩
  · rw [hkey]
    show strContainsB
      ((SuggestModalState.from_issues issues).toggle_current.apply_to_prompt p) p = true
    rw [happ]
    unfold strContainsB
    rw [String.data_append, String.data_append, String.data_append, htrim,
      List.append_assoc, List.append_assoc]
    exact containsAt_start p.data _
  · rw [hkey]
    show p.length <
      ((SuggestModalState.from_issues issues).toggle_current.apply_to_prompt p).length
    rw [happ, htrim]
    have h1 : ("\n" : String).length = 1 := rfl
    rw [String.length_append, String.length_append, String.length_append, h1]
    omega

/-- An issue with the trigger id EXP005. -/
def exp005Issue : Issue :=
  { id := "EXP005", category := "explicitness", severity := Severity.Warning
    message := "Test", line := none, suggestion := none }

/-- Witness for the amended C7 at concrete inputs. -/
theorem suggest_apply_appends_to_trimmed_prompt_witness :
    (SuggestModalState.from_issues [exp005Issue]).visible = true ∧
    strContainsB
      (handle_key envDefault
        { Model.new with
            original_prompt := "You are an assistant.",
            suggest_modal := (SuggestModalState.from_issues [exp005Issue]).toggle_current }
        ⟨KeyCode.Enter, false⟩).1.original_prompt "You are an assistant." = true ∧
    ("You are an assistant." : String).length <
      (handle_key envDefault
        { Model.new with
            original_prompt := "You are an assistant.",
            suggest_modal := (SuggestModalState.from_issues [exp005Issue]).toggle_current }
        ⟨KeyCode.Enter, false⟩).1.original_prompt.length :=
  suggest_apply_appends_to_trimmed_prompt envDefault [exp005Issue] "You are an assistant."
    (Or.inl (by decide)) (by decide)

/-- Counterexample to C7 as stated: for the original prompt `"a "` (with a
trailing space) and a trigger issue set, the working prompt produced by
selecting the first entry and pressing Enter does NOT contain the original
prompt as a substring — `apply_to_prompt` trims the original first — so the
result is not a strict superset by text containment of every original
prompt. -/
theorem suggest_apply_not_superset_cex :
    (SuggestModalState.from_issues [exp005Issue]).visible = true ∧
    strContainsB
      (handle_key envDefault
        { Model.new with
            original_prompt := "a ",
            suggest_modal := (SuggestModalState.from_issues [exp005Issue]).toggle_current }
        ⟨KeyCode.Enter, false⟩).1.original_prompt "a " = false := by
  decide
